import Mathlib

/-!
Verification of the task-persistence core of the `agenda-base` repository.

The embedding below follows the JavaScript source:
  * `src/js/modules/localStore.js` — class `LocalStore` (guest backend);
  * `src/js/modules/tasks.js` — the task service (module state `tasks`,
    operations `loadTasks`, `addTask`, `toggleTask`, `updateTask`,
    `removeTask`, `clearAllTasks`, `getTasks`, `getTasksStats`);
  * `firebase.js` (federated backend): `fetchFirestoreTasks`,
    `addFirestoreTask`, `toggleFirestoreTask`, `updateFirestoreTask`,
    `removeFirestoreTask`.

Modelling conventions:
  * A JS task object is a `Task` record; fields a given code path may leave
    absent (`ownerId`, `status`, `category`, `priority`, `dueDate`) are
    `Option`s, `none` standing for a missing/undefined key.
  * `localStorage` is a total map from keys to stored task lists; an absent
    entry is the empty list (`LocalStore.load` returns `[]` both for a
    missing key and for an unparsable blob, so this identification is
    behaviour-preserving for every claim below).
  * Nondeterministic inputs of the code (`Date.now()`, generated ids,
    Firestore document keys) are explicit parameters.
  * JS truthiness tests on `t.dueDate` (`t.dueDate && ...`) are embedded as
    `d != 0` on the present value: `undefined`, `null` and `0` are falsy.
  * `Date.toDateString()` equality is embedded as equality of calendar day
    numbers `ms / dayMs` (UTC days; the source compares local-zone days,
    which differs only by a constant offset).
  * A JS function that may `throw` returns an `Outcome`; module state
    survives a throw, so service operations return `Outcome α × ServiceState`.
-/

namespace Agenda

/-- A task record as the JS code builds and stores it.  Optional JS object
keys are `Option` fields, `none` meaning the key is absent. -/
structure Task where
  id : String
  ownerId : Option String := none
  title : String
  done : Bool
  category : Option String := none
  priority : Option String := none
  taskStatus : Option String := none
  dueDate : Option Nat := none
  createdAt : Nat
deriving Repr, DecidableEq

/-- One millisecond-denominated day, `24 * 60 * 60 * 1000`. -/
def dayMs : Nat := 24 * 60 * 60 * 1000

/-- `localStorage` contents: each key holds a stored task list (absent key:
empty list, matching `LocalStore.load`'s behaviour on `null` / parse failure). -/
def Storage := String → List Task

/-- The storage with no entry stored under any key. -/
def emptyStorage : Storage := fun _ => []

/-- `localStorage.setItem` on the serialized list (serialization is the
identity in this embedding; `localStore.js` round-trips through JSON). -/
def Storage.set (st : Storage) (k : String) (v : List Task) : Storage :=
  fun k2 => if k2 = k then v else st k2

/-- The default constructor argument of `LocalStore` (`localStore.js` line 7). -/
def agendaKey : String := "agenda_base_tasks"

/-- The namespaced key `this.key + ':' + userId` used by `load`/`save`/`clear`. -/
def storeKey (key userId : String) : String := key ++ ":" ++ userId

namespace LocalStore

/-- `LocalStore.load` (localStore.js lines 16-24): read and parse the blob
under the namespaced key; empty list when absent or unparsable. -/
def load (st : Storage) (key userId : String) : List Task :=
  st (storeKey key userId)

/-- `LocalStore.save` (localStore.js lines 31-37): write the list under the
namespaced key (write failures are swallowed; this embedding is the
success path). -/
def save (st : Storage) (key userId : String) (tasks : List Task) : Storage :=
  st.set (storeKey key userId) tasks

/-- `LocalStore.list` (localStore.js lines 44-46): `return this.load(userId)`. -/
def list (st : Storage) (key userId : String) : List Task :=
  load st key userId

/-- `LocalStore.add` (localStore.js lines 54-65).  The JS method is declared
as `add(userId, title)`: the extra arguments its caller `addTask` passes
(`dueDate`, `category`, `priority`, `status`) are not parameters and are
discarded at the call boundary, so the built record has only
`id`, `title`, `done:false`, `createdAt` — no `ownerId` and none of the
optional fields.  `newId` stands for `this._generateId()` and `now` for
`Date.now()`. -/
def add (st : Storage) (key userId title : String) (newId : String) (now : Nat) :
    Task × Storage :=
  let tasks := load st key userId
  let item : Task := { id := newId, title := title, done := false, createdAt := now }
  (item, save st key userId (item :: tasks))

/-- Replace the first element satisfying `p` by its image under `f`,
returning the new element (if any) and the rewritten list.  This is the
`findIndex` / `tasks[index] = ...` pattern of `toggle` and `update`. -/
def replaceFirst (p : Task → Bool) (f : Task → Task) : List Task → Option Task × List Task
  | [] => (none, [])
  | t :: ts =>
    if p t then (some (f t), f t :: ts)
    else
      let r := replaceFirst p f ts
      (r.1, t :: r.2)

/-- `LocalStore.toggle` (localStore.js lines 73-83): flip `done` on the first
record whose `id` matches; persist; return it, or `null` when absent. -/
def toggle (st : Storage) (key userId id : String) : Option Task × Storage :=
  let tasks := load st key userId
  let r := replaceFirst (fun t => t.id == id) (fun t => { t with done := !t.done }) tasks
  match r.1 with
  | some t2 => (some t2, save st key userId r.2)
  | none => (none, st)

/-- A partial-update object (`updates` argument of `update`): each field is
`some v` when the key is present with value `v`, `none` when absent. -/
structure TaskUpdates where
  id : Option String := none
  ownerId : Option (Option String) := none
  title : Option String := none
  done : Option Bool := none
  category : Option (Option String) := none
  priority : Option (Option String) := none
  taskStatus : Option (Option String) := none
  dueDate : Option (Option Nat) := none
  createdAt : Option Nat := none
deriving Repr, DecidableEq

/-- The spread merge `{ ...task, ...updates }`: every key present in
`updates` overwrites the stored value, every absent key is kept. -/
def applyUpdates (t : Task) (u : TaskUpdates) : Task :=
  { id := u.id.getD t.id
    ownerId := u.ownerId.getD t.ownerId
    title := u.title.getD t.title
    done := u.done.getD t.done
    category := u.category.getD t.category
    priority := u.priority.getD t.priority
    taskStatus := u.taskStatus.getD t.taskStatus
    dueDate := u.dueDate.getD t.dueDate
    createdAt := u.createdAt.getD t.createdAt }

/-- `LocalStore.update` (localStore.js lines 104-114): shallow-merge `updates`
onto the first record whose `id` matches; persist; return it, or `null`. -/
def update (st : Storage) (key userId id : String) (u : TaskUpdates) :
    Option Task × Storage :=
  let tasks := load st key userId
  let r := replaceFirst (fun t => t.id == id) (fun t => applyUpdates t u) tasks
  match r.1 with
  | some t2 => (some t2, save st key userId r.2)
  | none => (none, st)

/-- `LocalStore.remove` (localStore.js lines 91-95): keep the records whose
`id` differs; persist; report `true` unconditionally. -/
def remove (st : Storage) (key userId id : String) : Bool × Storage :=
  (true, save st key userId ((load st key userId).filter (fun t => t.id != id)))

/-- `LocalStore.clear` (localStore.js lines 132-134): `localStorage.removeItem`;
under the absent-key-is-empty-list identification, store the empty list. -/
def clear (st : Storage) (key userId : String) : Storage :=
  save st key userId []

/-- The object returned by `LocalStore.getStats` (localStore.js lines 141-148):
three counts, and only three. -/
structure LocalStats where
  total : Nat
  completed : Nat
  pending : Nat
deriving Repr, DecidableEq

/-- `LocalStore.getStats` (localStore.js lines 141-148). -/
def getStats (st : Storage) (key userId : String) : LocalStats :=
  let tasks := load st key userId
  let total := tasks.length
  let completed := (tasks.filter (fun t => t.done)).length
  { total := total, completed := completed, pending := total - completed }

/-- The same return object of `getStats` viewed as a JS object: its list of
present keys with their values, in source order. -/
def getStatsFields (st : Storage) (key userId : String) : List (String × Nat) :=
  let tasks := load st key userId
  let total := tasks.length
  let completed := (tasks.filter (fun t => t.done)).length
  [("total", total), ("completed", completed), ("pending", total - completed)]

end LocalStore

/-! ## Remote (Firestore) adapter, `firebase.js`

The remote collection `tasks` is a list of documents; the document key is
carried in the `id` field of the `Task` record (documents the code writes
never contain an `id` data field, so the identification is faithful).  The
embedding is the authenticated, initialized success path: every function
first checks `if (!Firebase) throw`, which cannot fire once
`tryInitFirebase` has succeeded. -/

/-- Insert a task into a createdAt-descending list, keeping it sorted: the
order `orderBy('createdAt', 'desc')` produces for `fetchFirestoreTasks`. -/
def insertByCreatedAtDesc (t : Task) : List Task → List Task
  | [] => [t]
  | u :: us =>
    if u.createdAt ≤ t.createdAt then t :: u :: us
    else u :: insertByCreatedAtDesc t us

/-- Sort a document list by `createdAt` descending. -/
def sortByCreatedAtDesc : List Task → List Task
  | [] => []
  | t :: ts => insertByCreatedAtDesc t (sortByCreatedAtDesc ts)

/-- `fetchFirestoreTasks` (firebase.js lines 275-295): query the `tasks`
collection for `ownerId == userId`, ordered by `createdAt` descending, and
map each document to `{ id: d.id, ...d.data() }`. -/
def fetchFirestoreTasks (remote : List Task) (userId : String) : List Task :=
  sortByCreatedAtDesc (remote.filter (fun t => t.ownerId == some userId))

/-- `addFirestoreTask` (firebase.js lines 303-331).  Declared as
`addFirestoreTask(userId, title, dueDate = null)`: the `category`,
`priority` and `status` arguments its caller passes are not parameters and
are discarded.  The document stores `ownerId`, `title`, `done:false`,
`createdAt`, `dueDate` (`dueDate ? ... : null` — falsy `0` becomes `null`);
`newId` stands for the key Firestore assigns, `now` for `Date.now()`. -/
def addFirestoreTask (remote : List Task) (userId title : String)
    (dueDate : Option Nat) (newId : String) (now : Nat) : Task × List Task :=
  let due : Option Nat :=
    match dueDate with
    | none => none
    | some d => if d == 0 then none else some d
  let item : Task :=
    { id := newId, ownerId := some userId, title := title, done := false,
      createdAt := now, dueDate := due }
  (item, remote ++ [item])

/-- `toggleFirestoreTask` (firebase.js lines 339-361): fetch the user's list,
find the record, issue a partial update of `done` on the document with that
key, and return the locally-computed flipped record (`null` when absent). -/
def toggleFirestoreTask (remote : List Task) (userId id : String) :
    Option Task × List Task :=
  let l := fetchFirestoreTasks remote userId
  match l.find? (fun t => t.id == id) with
  | none => (none, remote)
  | some current =>
    (some { current with done := !current.done },
     remote.map (fun t => if t.id == id then { t with done := !current.done } else t))

/-- `removeFirestoreTask` (firebase.js lines 369-383): delete by document key;
report `true` whenever the delete call does not raise. -/
def removeFirestoreTask (remote : List Task) (userId id : String) :
    Bool × List Task :=
  (true, remote.filter (fun t => t.id != id))

/-- `updateFirestoreTask` (firebase.js lines 392-409): issue a partial update
with the given fields on the document with that key, then re-fetch the
user's list and return the matching record (`null` when absent). -/
def updateFirestoreTask (remote : List Task) (userId id : String)
    (u : LocalStore.TaskUpdates) : Option Task × List Task :=
  let remote2 := remote.map (fun t => if t.id == id then LocalStore.applyUpdates t u else t)
  ((fetchFirestoreTasks remote2 userId).find? (fun t => t.id == id), remote2)

/-! ## Task service, `tasks.js` -/

/-- A whitespace character in the sense of `String.prototype.trim` (the
ASCII members; the title strings of interest contain no exotic spaces). -/
def isSpaceChar (c : Char) : Bool :=
  c == ' ' || c == '\t' || c == '\n' || c == '\r'

/-- JS `title.trim()`: strip leading and trailing whitespace. -/
def jsTrim (s : String) : String :=
  ⟨((s.data.dropWhile isSpaceChar).reverse.dropWhile isSpaceChar).reverse⟩

/-- The backend a session uses: `mode === 'guest'` or `mode === 'firebase'`. -/
inductive Mode where
  | guest
  | firebase
deriving Repr, DecidableEq

/-- The session values `getCurrentUserId()` / `getCurrentUserMode()` resolve
(auth.js lines 168-170 and 192-194): each is `null` when no user is set. -/
structure Session where
  userId : Option String
  mode : Option Mode
deriving Repr, DecidableEq

/-- The error a service operation throws: `new Error('Usuario no
autenticado')`, `new Error('El título de la tarea no puede estar vacío')`. -/
inductive TaskError where
  | notAuthenticated
  | validationError
deriving Repr, DecidableEq

/-- The outcome of a JS call: a returned value or a thrown error. -/
inductive Outcome (α : Type) where
  | ok (value : α)
  | thrown (e : TaskError)
deriving Repr, DecidableEq

/-- The mutable state the service operations touch: the module-level cache
`tasks`, the `localStorage` contents, and the Firestore collection. -/
structure ServiceState where
  cache : List Task
  store : Storage
  remote : List Task

/-- The state with an empty cache, empty local storage, empty collection. -/
def initialState : ServiceState :=
  { cache := [], store := emptyStorage, remote := [] }

/-- `getTasks` (tasks.js lines 41-43): a copy of the cached list. -/
def getTasks (s : ServiceState) : List Task :=
  s.cache

/-- `loadTasks` (tasks.js lines 112-136).  With no user or mode it does not
throw: it empties the cache, notifies, and returns.  Otherwise it replaces
the cache with the selected adapter's list.  The `catch` branch (remote
fetch failure) also ends in an empty cache and a normal return, so this
function never produces `Outcome.thrown`. -/
def loadTasks (sess : Session) (s : ServiceState) : Outcome Unit × ServiceState :=
  match sess.userId, sess.mode with
  | some userId, some mode =>
    match mode with
    | Mode.guest =>
      (Outcome.ok (), { s with cache := LocalStore.list s.store agendaKey userId })
    | Mode.firebase =>
      (Outcome.ok (), { s with cache := fetchFirestoreTasks s.remote userId })
  | _, _ => (Outcome.ok (), { s with cache := [] })

/-- `addTask` (tasks.js lines 147-178): auth check, then title validation
(`!title || title.trim().length === 0`), then the selected adapter's add
with the trimmed title, then `tasks.unshift(newTask)`.  The JS declaration
defaults are `dueDate = null`, `category = 'other'`, `priority = 'medium'`,
`status = 'pending'`; all four are forwarded to the adapter, which by its
own declared signature keeps none of them beyond `dueDate` (remote only). -/
def addTask (sess : Session) (s : ServiceState) (title : String)
    (dueDate : Option Nat) (category priority taskStatus : String)
    (newId : String) (now : Nat) : Outcome Task × ServiceState :=
  match sess.userId, sess.mode with
  | some userId, some mode =>
    if title == "" || (jsTrim title).length == 0 then
      (Outcome.thrown TaskError.validationError, s)
    else
      match mode with
      | Mode.guest =>
        let r := LocalStore.add s.store agendaKey userId (jsTrim title) newId now
        (Outcome.ok r.1, { s with store := r.2, cache := r.1 :: s.cache })
      | Mode.firebase =>
        let r := addFirestoreTask s.remote userId (jsTrim title) dueDate newId now
        (Outcome.ok r.1, { s with remote := r.2, cache := r.1 :: s.cache })
  | _, _ => (Outcome.thrown TaskError.notAuthenticated, s)

/-- The cache refresh `tasks[index] = updatedTask` after toggle/update
(tasks.js lines 199-202 etc.): replace the first cached record with the
matching id by the adapter's record. -/
def refreshCache (cache : List Task) (id : String) (updated : Task) : List Task :=
  (LocalStore.replaceFirst (fun t => t.id == id) (fun _ => updated) cache).2

/-- `toggleTask` (tasks.js lines 185-226): auth check, adapter toggle, then
on a non-null result replace the matching cached entry and notify. -/
def toggleTask (sess : Session) (s : ServiceState) (id : String) :
    Outcome (Option Task) × ServiceState :=
  match sess.userId, sess.mode with
  | some userId, some mode =>
    match mode with
    | Mode.guest =>
      let r := LocalStore.toggle s.store agendaKey userId id
      match r.1 with
      | some t2 =>
        (Outcome.ok (some t2), { s with store := r.2, cache := refreshCache s.cache id t2 })
      | none => (Outcome.ok none, s)
    | Mode.firebase =>
      let r := toggleFirestoreTask s.remote userId id
      match r.1 with
      | some t2 =>
        (Outcome.ok (some t2), { s with remote := r.2, cache := refreshCache s.cache id t2 })
      | none => (Outcome.ok none, s)
  | _, _ => (Outcome.thrown TaskError.notAuthenticated, s)

/-- `updateTask` (tasks.js lines 234-274): same replace-in-place pattern as
toggle, through the adapter's update. -/
def updateTask (sess : Session) (s : ServiceState) (id : String)
    (u : LocalStore.TaskUpdates) : Outcome (Option Task) × ServiceState :=
  match sess.userId, sess.mode with
  | some userId, some mode =>
    match mode with
    | Mode.guest =>
      let r := LocalStore.update s.store agendaKey userId id u
      match r.1 with
      | some t2 =>
        (Outcome.ok (some t2), { s with store := r.2, cache := refreshCache s.cache id t2 })
      | none => (Outcome.ok none, s)
    | Mode.firebase =>
      let r := updateFirestoreTask s.remote userId id u
      match r.1 with
      | some t2 =>
        (Outcome.ok (some t2), { s with remote := r.2, cache := refreshCache s.cache id t2 })
      | none => (Outcome.ok none, s)
  | _, _ => (Outcome.thrown TaskError.notAuthenticated, s)

/-- `removeTask` (tasks.js lines 281-315): auth check, adapter remove, then
on success `tasks = tasks.filter(t => t.id !== id)` and notify. -/
def removeTask (sess : Session) (s : ServiceState) (id : String) :
    Outcome Bool × ServiceState :=
  match sess.userId, sess.mode with
  | some userId, some mode =>
    match mode with
    | Mode.guest =>
      let r := LocalStore.remove s.store agendaKey userId id
      if r.1 then
        (Outcome.ok true, { s with store := r.2, cache := s.cache.filter (fun t => t.id != id) })
      else (Outcome.ok r.1, { s with store := r.2 })
    | Mode.firebase =>
      let r := removeFirestoreTask s.remote userId id
      if r.1 then
        (Outcome.ok true, { s with remote := r.2, cache := s.cache.filter (fun t => t.id != id) })
      else (Outcome.ok r.1, { s with remote := r.2 })
  | _, _ => (Outcome.thrown TaskError.notAuthenticated, s)

/-- `clearAllTasks` (tasks.js lines 405-431): auth check; guest mode clears
the namespaced entry, firebase mode removes each currently cached task's
document in turn; then `tasks = []` and notify. -/
def clearAllTasks (sess : Session) (s : ServiceState) :
    Outcome Unit × ServiceState :=
  match sess.userId, sess.mode with
  | some userId, some mode =>
    match mode with
    | Mode.guest =>
      (Outcome.ok (), { s with store := LocalStore.clear s.store agendaKey userId, cache := [] })
    | Mode.firebase =>
      let r2 := s.cache.foldl (fun r t => (removeFirestoreTask r userId t.id).2) s.remote
      (Outcome.ok (), { s with remote := r2, cache := [] })
  | _, _ => (Outcome.thrown TaskError.notAuthenticated, s)

/-! ## Service statistics, `getTasksStats` (tasks.js lines 321-343) -/

/-- The object returned by `getTasksStats`. -/
structure TasksStats where
  total : Nat
  completed : Nat
  pending : Nat
  overdue : Nat
  dueToday : Nat
  dueSoon : Nat
deriving Repr, DecidableEq

/-- The filter `t => !t.done && t.dueDate && t.dueDate < now`. -/
def isOverdue (now : Nat) (t : Task) : Bool :=
  !t.done && (match t.dueDate with
    | some d => d != 0 && d < now
    | none => false)

/-- The filter `t => !t.done && t.dueDate && new Date(t.dueDate).toDateString()
=== today.toDateString()`. -/
def isDueToday (now : Nat) (t : Task) : Bool :=
  !t.done && (match t.dueDate with
    | some d => d != 0 && d / dayMs == now / dayMs
    | none => false)

/-- The filter `t => !t.done && t.dueDate && t.dueDate > now && t.dueDate <=
threeDaysFromNow` with `threeDaysFromNow = now + 3 * 24 * 60 * 60 * 1000`. -/
def isDueSoon (now : Nat) (t : Task) : Bool :=
  !t.done && (match t.dueDate with
    | some d => d != 0 && now < d && d ≤ now + 3 * dayMs
    | none => false)

/-- `getTasksStats` over a cached list, `now` standing for `Date.now()` (and
for the `new Date()` taken on the same tick). -/
def getTasksStats (tasks : List Task) (now : Nat) : TasksStats :=
  let total := tasks.length
  let completed := (tasks.filter (fun t => t.done)).length
  let pending := total - completed
  let overdue := (tasks.filter (isOverdue now)).length
  let dueToday := (tasks.filter (isDueToday now)).length
  let dueSoon := (tasks.filter (isDueSoon now)).length
  { total := total, completed := completed, pending := pending,
    overdue := overdue, dueToday := dueToday, dueSoon := dueSoon }

/-- The same return object of `getTasksStats` viewed as a JS object: its list
of present keys with their values, in source order. -/
def getTasksStatsFields (tasks : List Task) (now : Nat) : List (String × Nat) :=
  let stats := getTasksStats tasks now
  [("total", stats.total), ("completed", stats.completed), ("pending", stats.pending),
   ("overdue", stats.overdue), ("dueToday", stats.dueToday), ("dueSoon", stats.dueSoon)]

/-- The record guest-mode `addTask` builds in the C1 failing run. -/
def c1SampleTask : Task :=
  { id := "id-1", ownerId := none, title := "Comprar leche", done := false,
    category := none, priority := none, taskStatus := none, dueDate := none,
    createdAt := 1000 }

/-- A scenario instant for C2: midday of epoch day 10. -/
def c2Now : Nat := 10 * dayMs + dayMs / 2

/-- C2 scenario, task due on the previous calendar day, not done. -/
def c2TaskA : Task :=
  { id := "a", title := "ayer", done := false, dueDate := some (9 * dayMs + dayMs / 2),
    createdAt := 1 }

/-- C2 scenario, task due on the current calendar day, earlier than now. -/
def c2TaskB : Task :=
  { id := "b", title := "hoy", done := false, dueDate := some (10 * dayMs + 1000),
    createdAt := 2 }

/-- C2 scenario, task due exactly two days ahead of now. -/
def c2TaskC : Task :=
  { id := "c", title := "pasado", done := false, dueDate := some (c2Now + 2 * dayMs),
    createdAt := 3 }

/-- C2 scenario, completed task. -/
def c2TaskD : Task :=
  { id := "d", title := "hecha", done := true, createdAt := 4 }

/-- C2 witness scenario, task due on the current calendar day at exactly the
current instant. -/
def c2TaskBexact : Task :=
  { id := "b", title := "hoy", done := false, dueDate := some c2Now, createdAt := 2 }

/-- A stored task for the C3 and C5 scenarios: not done, already past due
at instant 10, created at instant 5. -/
def c3Task : Task :=
  { id := "a", ownerId := some "u1", title := "t", done := false, dueDate := some 5,
    createdAt := 5 }

/-- Sequentially run guest/firebase-mode `addTask` once per `(title, newId,
now)` triple, collecting the returned records in call order. -/
def runCreates (sess : Session) (s : ServiceState) :
    List (String × String × Nat) → List Task × ServiceState
  | [] => ([], s)
  | (title, newId, now) :: rest =>
    match addTask sess s title none "other" "medium" "pending" newId now with
    | (Outcome.ok t, s2) =>
      let r := runCreates sess s2 rest
      (t :: r.1, r.2)
    | (Outcome.thrown _, s2) => runCreates sess s2 rest

/-- Splitting a list's length by the `done` flag. -/
theorem length_filter_done_split (tasks : List Task) :
    (tasks.filter (fun t => t.done)).length + (tasks.filter (fun t => !t.done)).length
      = tasks.length := by
  induction tasks with
  | nil => rfl
  | cons t ts ih =>
    cases hd : t.done <;> simp [List.filter_cons, hd] <;> omega

/-! ## Theorems -/

/-- Claim C10: over any cached list, `getTasksStats` satisfies
`completed + pending = total`, and `pending` counts exactly the tasks with
`done = false`, regardless of their status field — so a task with status
`cancelled` and `done = false` is counted in `pending`, never subtracted
from `total`. -/
theorem C10_stats_pending_partition (tasks : List Task) (now : Nat) :
    (getTasksStats tasks now).completed + (getTasksStats tasks now).pending
        = (getTasksStats tasks now).total ∧
    (getTasksStats tasks now).pending = (tasks.filter (fun t => !t.done)).length := by
  have hsplit := length_filter_done_split tasks
  simp only [getTasksStats]
  constructor
  · omega
  · omega

/-- Claim C7: on an authenticated session, `addTask` with a title that is empty or
whitespace-only (its JS trim is empty) throws the validation error and
returns the state untouched: no adapter is called and the cache is exactly
what it was before the call. -/
theorem C7_create_blank_title_rejected (sess : Session) (s : ServiceState)
    (u : String) (m : Mode) (hu : sess.userId = some u) (hm : sess.mode = some m)
    (title : String) (htrim : jsTrim title = "")
    (dueDate : Option Nat) (category priority taskStatus newId : String) (now : Nat) :
    addTask sess s title dueDate category priority taskStatus newId now
      = (Outcome.thrown TaskError.validationError, s) := by
  obtain ⟨uo, mo⟩ := sess
  simp only [Session.userId] at hu
  simp only [Session.mode] at hm
  subst hu
  subst hm
  simp [addTask, htrim]

/-- Witness for C7 at the spec's own scenario `create("   ")`. -/
theorem C7_create_blank_title_rejected_witness :
    addTask { userId := some "u1", mode := some Mode.guest } initialState "   " none
        "other" "medium" "pending" "i" 5
      = (Outcome.thrown TaskError.validationError, initialState) :=
  C7_create_blank_title_rejected _ initialState "u1" Mode.guest rfl rfl "   " (by decide)
    none "other" "medium" "pending" "i" 5

/-- Claim C1, evaluated at a failing input: in guest mode `addTask` forwards
`dueDate`, `category`, `priority` and `status` to `LocalStore.add`, whose
declared parameters are only `(userId, title)`; the created record — both
as returned and as listed back from the store — has title, id, `createdAt`
and `done = false`, but none of the four optional fields and no `ownerId`. -/
theorem C1_local_add_drops_fields :
    (addTask { userId := some "u1", mode := some Mode.guest } initialState
        "Comprar leche" (some 907200000) "work" "high" "pending" "id-1" 1000).1
      = Outcome.ok c1SampleTask ∧
    LocalStore.list
        (addTask { userId := some "u1", mode := some Mode.guest } initialState
          "Comprar leche" (some 907200000) "work" "high" "pending" "id-1" 1000).2.store
        agendaKey "u1"
      = [c1SampleTask] := by
  constructor
  · decide
  · decide

/-- Claim C6 counterexample: with neither owner nor mode resolvable, `loadTasks`
does not fail with NotAuthenticated — it returns normally after resetting
the cache to the empty list. -/
theorem C6_counterexample_load_does_not_throw :
    (loadTasks { userId := none, mode := none } initialState).1 = Outcome.ok () ∧
    (loadTasks { userId := none, mode := none } initialState).1
        ≠ Outcome.thrown TaskError.notAuthenticated ∧
    (loadTasks { userId := none, mode := none } initialState).2.cache = [] := by
  refine ⟨rfl, ?_, rfl⟩
  decide

/-- Claim C6 amended: when the owner id or the mode is absent, the five mutating
operations (`addTask`, `toggleTask`, `updateTask`, `removeTask`,
`clearAllTasks`) throw NotAuthenticated and leave the whole state — cache,
local storage and remote collection — untouched; `loadTasks` instead
returns normally with the cache emptied and the stores untouched. -/
theorem C6_unauthenticated_fails_before_adapters (sess : Session) (s : ServiceState)
    (h : sess.userId = none ∨ sess.mode = none)
    (title : String) (dueDate : Option Nat) (category priority taskStatus newId : String)
    (now : Nat) (id : String) (u : LocalStore.TaskUpdates) :
    addTask sess s title dueDate category priority taskStatus newId now
        = (Outcome.thrown TaskError.notAuthenticated, s) ∧
    toggleTask sess s id = (Outcome.thrown TaskError.notAuthenticated, s) ∧
    updateTask sess s id u = (Outcome.thrown TaskError.notAuthenticated, s) ∧
    removeTask sess s id = (Outcome.thrown TaskError.notAuthenticated, s) ∧
    clearAllTasks sess s = (Outcome.thrown TaskError.notAuthenticated, s) ∧
    loadTasks sess s = (Outcome.ok (), { s with cache := [] }) := by
  obtain ⟨uo, mo⟩ := sess
  rcases h with h | h
  · simp only [Session.userId] at h
    subst h
    simp [addTask, toggleTask, updateTask, removeTask, clearAllTasks, loadTasks]
  · simp only [Session.mode] at h
    subst h
    cases uo <;>
      simp [addTask, toggleTask, updateTask, removeTask, clearAllTasks, loadTasks]

/-- Claim C2 counterexample: four cached tasks matching the claim's premise
(one not done due the previous calendar day, one not done due the current
calendar day — here earlier the same day —, one not done due two days ahead
of now, one done), where `getTasksStats` yields `overdue = 2`, not `1`: the
current-day task's past due date is counted by the overdue filter as well. -/
theorem C2_counterexample_morning_due_today :
    (c2TaskA.done = false
      ∧ c2TaskA.dueDate.getD 0 / dayMs + 1 = c2Now / dayMs) ∧
    (c2TaskB.done = false
      ∧ c2TaskB.dueDate.getD 0 / dayMs = c2Now / dayMs) ∧
    (c2TaskC.done = false ∧ c2TaskC.dueDate = some (c2Now + 2 * dayMs)) ∧
    c2TaskD.done = true ∧
    (getTasksStats [c2TaskA, c2TaskB, c2TaskC, c2TaskD] c2Now).overdue = 2 ∧
    getTasksStats [c2TaskA, c2TaskB, c2TaskC, c2TaskD] c2Now
      ≠ { total := 4, completed := 1, pending := 3, overdue := 1, dueToday := 1,
          dueSoon := 1 } := by
  decide

/-- Claim C2 amended: for every cached list holding exactly one not-done task
due on the previous calendar day, one not-done task due exactly at the
current instant (hence on the current calendar day), one not-done task due
exactly two days ahead of now, and one done task, `getTasksStats` returns
`overdue = 1, dueToday = 1, dueSoon = 1, completed = 1, pending = 3,
total = 4`.  (When the current-day task is instead due strictly earlier or
strictly later than `now`, it is additionally counted by the overdue or
due-soon filter, as the counterexample shows.) -/
theorem C2_stats_scenario (now da : Nat) (a b c d : Task) (l : List Task)
    (ha1 : a.done = false) (ha2 : a.dueDate = some da) (ha3 : da ≠ 0)
    (ha4 : da / dayMs + 1 = now / dayMs)
    (hb1 : b.done = false) (hb2 : b.dueDate = some now) (hn : now ≠ 0)
    (hc1 : c.done = false) (hc2 : c.dueDate = some (now + 2 * dayMs))
    (hd : d.done = true)
    (hl : l.Perm [a, b, c, d]) :
    getTasksStats l now
      = { total := 4, completed := 1, pending := 3, overdue := 1, dueToday := 1,
          dueSoon := 1 } := by
  have ha4' : da / 86400000 + 1 = now / 86400000 := ha4
  have hda_lt : da < now := by omega
  have hOa : isOverdue now a = true := by
    simp [isOverdue, ha1, ha2, ha3, hda_lt]
  have hOb : isOverdue now b = false := by
    simp [isOverdue, hb1, hb2]
  have hOc : isOverdue now c = false := by
    simp [isOverdue, hc1, hc2]
  have hOd : isOverdue now d = false := by
    simp [isOverdue, hd]
  have hTa : isDueToday now a = false := by
    simp [isDueToday, ha1, ha2, dayMs]
    intro h
    omega
  have hTb : isDueToday now b = true := by
    simp [isDueToday, hb1, hb2, hn]
  have hTc : isDueToday now c = false := by
    simp [isDueToday, hc1, hc2, dayMs]
    intro h
    omega
  have hTd : isDueToday now d = false := by
    simp [isDueToday, hd]
  have hSa : isDueSoon now a = false := by
    simp [isDueSoon, ha1, ha2]
    intro h hlt
    omega
  have hSb : isDueSoon now b = false := by
    simp [isDueSoon, hb1, hb2]
  have hSc : isDueSoon now c = true := by
    simp [isDueSoon, hc1, hc2, dayMs]
  have hSd : isDueSoon now d = false := by
    simp [isDueSoon, hd]
  have hfilter : ∀ p : Task → Bool, (l.filter p).length = List.countP p [a, b, c, d] := by
    intro p
    rw [← List.countP_eq_length_filter]
    exact hl.countP_eq p
  have htot : l.length = 4 := by simp [hl.length_eq]
  have hcomp : (l.filter (fun t => t.done)).length = 1 := by
    rw [hfilter]
    simp [List.countP_cons, ha1, hb1, hc1, hd]
  have hov : (l.filter (isOverdue now)).length = 1 := by
    rw [hfilter]
    simp [List.countP_cons, hOa, hOb, hOc, hOd]
  have hto : (l.filter (isDueToday now)).length = 1 := by
    rw [hfilter]
    simp [List.countP_cons, hTa, hTb, hTc, hTd]
  have hso : (l.filter (isDueSoon now)).length = 1 := by
    rw [hfilter]
    simp [List.countP_cons, hSa, hSb, hSc, hSd]
  simp only [getTasksStats, TasksStats.mk.injEq]
  refine ⟨?_, ?_, ?_, ?_, ?_, ?_⟩ <;> simp [htot, hcomp, hov, hto, hso]

/-- Witness for C2's amended theorem: the scenario at midday of epoch day 10,
the current-day task due exactly then. -/
theorem C2_stats_scenario_witness :
    getTasksStats [c2TaskA, c2TaskBexact, c2TaskC, c2TaskD] c2Now
      = { total := 4, completed := 1, pending := 3, overdue := 1, dueToday := 1,
          dueSoon := 1 } :=
  C2_stats_scenario c2Now (9 * dayMs + dayMs / 2) c2TaskA c2TaskBexact c2TaskC c2TaskD
    [c2TaskA, c2TaskBexact, c2TaskC, c2TaskD]
    rfl rfl (by decide) (by decide) rfl rfl (by decide) rfl rfl rfl
    (List.Perm.refl _)

/-- Claim C3 counterexample: over the same stored list (holding one overdue
task), the service's stats object carries `overdue = 1` while the local
adapter's `getStats` object (localStore.js lines 141-148) carries no
`overdue` key at all, and the two objects are not equal: the adapter does
not return the six counts. -/
theorem C3_counterexample_getStats_has_three_keys :
    (LocalStore.getStatsFields (LocalStore.save emptyStorage agendaKey "u1" [c3Task])
        agendaKey "u1").lookup "overdue" = none ∧
    (getTasksStatsFields [c3Task] 10).lookup "overdue" = some 1 ∧
    LocalStore.getStatsFields (LocalStore.save emptyStorage agendaKey "u1" [c3Task])
        agendaKey "u1"
      ≠ getTasksStatsFields [c3Task] 10 := by
  decide

/-- Claim C3 amended: for every owner and stored list, the three counts the
local adapter's `getStats` does return — total, completed, pending — agree
with the service's `getTasksStats` over the same list, computed by the same
definitions; the remaining three keys (overdue, dueToday, dueSoon) are
absent from the local adapter's stats object, so the six-count equality
(and with it a shared due-soon window) fails. -/
theorem C3_local_stats_three_counts_agree (st : Storage) (key userId : String) (now : Nat) :
    (LocalStore.getStats st key userId).total
        = (getTasksStats (LocalStore.load st key userId) now).total ∧
    (LocalStore.getStats st key userId).completed
        = (getTasksStats (LocalStore.load st key userId) now).completed ∧
    (LocalStore.getStats st key userId).pending
        = (getTasksStats (LocalStore.load st key userId) now).pending ∧
    (LocalStore.getStatsFields st key userId).lookup "overdue" = none ∧
    (LocalStore.getStatsFields st key userId).lookup "dueToday" = none ∧
    (LocalStore.getStatsFields st key userId).lookup "dueSoon" = none := by
  refine ⟨rfl, rfl, rfl, ?_, ?_, ?_⟩ <;> simp [LocalStore.getStatsFields, List.lookup]

/-- Claim C4 counterexample: the guest adapter's created record carries no
`ownerId` field at all — in particular not the creating session's owner id
— and the record listed back from that owner's store carries none either. -/
theorem C4_counterexample_local_add_no_owner :
    (LocalStore.add emptyStorage agendaKey "u1" "Comprar pan" "id-9" 7).1.ownerId
        = none ∧
    (LocalStore.add emptyStorage agendaKey "u1" "Comprar pan" "id-9" 7).1.ownerId
        ≠ some "u1" ∧
    (LocalStore.list (LocalStore.add emptyStorage agendaKey "u1" "Comprar pan" "id-9"
        7).2 agendaKey "u1").map Task.ownerId = [none] := by
  decide

/-- Membership through the createdAt-descending insertion. -/
theorem mem_insertByCreatedAtDesc {x t : Task} {l : List Task} :
    x ∈ insertByCreatedAtDesc t l ↔ x = t ∨ x ∈ l := by
  induction l with
  | nil => simp [insertByCreatedAtDesc]
  | cons u us ih =>
    by_cases h : u.createdAt ≤ t.createdAt
    · simp [insertByCreatedAtDesc, h]
    · simp [insertByCreatedAtDesc, h, ih]
      tauto

/-- Membership is preserved by the createdAt-descending sort. -/
theorem mem_sortByCreatedAtDesc {x : Task} {l : List Task} :
    x ∈ sortByCreatedAtDesc l ↔ x ∈ l := by
  induction l with
  | nil => simp [sortByCreatedAtDesc]
  | cons t ts ih => simp [sortByCreatedAtDesc, mem_insertByCreatedAtDesc, ih]

/-- Claim C4 amended: the remote adapter stores and returns `ownerId` equal to
the creating session's owner id, and every record its list returns for an
owner carries that owner's id; the guest adapter's records instead carry no
`ownerId` field — guest owner scoping is done by the namespaced storage key
alone. -/
theorem C4_ownerId_remote_only (remote : List Task) (userId title : String)
    (dueDate : Option Nat) (newId : String) (now : Nat)
    (st : Storage) (key localUser localTitle localId : String) (localNow : Nat) :
    (addFirestoreTask remote userId title dueDate newId now).1.ownerId = some userId ∧
    (addFirestoreTask remote userId title dueDate newId now).2
        = remote ++ [(addFirestoreTask remote userId title dueDate newId now).1] ∧
    (∀ x ∈ fetchFirestoreTasks remote userId, x.ownerId = some userId) ∧
    (LocalStore.add st key localUser localTitle localId localNow).1.ownerId = none := by
  refine ⟨rfl, rfl, ?_, rfl⟩
  intro x hx
  simp only [fetchFirestoreTasks, mem_sortByCreatedAtDesc, List.mem_filter] at hx
  simpa using hx.2

/-- Witness for C4's amended theorem: a fresh document for owner "u1", and the
sole record fetched from a one-document collection. -/
theorem C4_ownerId_remote_only_witness :
    (addFirestoreTask [] "u1" "t" none "r1" 3).1.ownerId = some "u1" ∧
    c3Task.ownerId = some "u1" :=
  ⟨(C4_ownerId_remote_only [] "u1" "t" none "r1" 3 emptyStorage agendaKey "u" "t" "i"
      0).1,
   (C4_ownerId_remote_only [c3Task] "u1" "t" none "r1" 3 emptyStorage agendaKey "u" "t"
      "i" 0).2.2.1 c3Task (by decide)⟩

/-- Reading back a just-saved list gives that list. -/
theorem load_save (st : Storage) (key userId : String) (l : List Task) :
    LocalStore.load (LocalStore.save st key userId l) key userId = l := by
  simp [LocalStore.load, LocalStore.save, Storage.set]

/-- The record `replaceFirst` reports is the image of the first match. -/
theorem replaceFirst_fst (p : Task → Bool) (f : Task → Task) (l : List Task) :
    (LocalStore.replaceFirst p f l).1 = (l.find? p).map f := by
  induction l with
  | nil => rfl
  | cons t ts ih =>
    by_cases h : p t <;> simp [LocalStore.replaceFirst, List.find?, h, ih]

/-- A column `g` untouched by `f` is untouched by `replaceFirst`. -/
theorem replaceFirst_map_eq {γ : Type} (p : Task → Bool) (f : Task → Task) (g : Task → γ)
    (l : List Task) (hpres : ∀ t, g (f t) = g t) :
    ((LocalStore.replaceFirst p f l).2).map g = l.map g := by
  induction l with
  | nil => rfl
  | cons t ts ih =>
    by_cases h : p t <;> simp [LocalStore.replaceFirst, h, ih, hpres]

/-- The record `LocalStore.update` returns is the merge applied to the first
stored record whose id matches. -/
theorem update_fst (st : Storage) (key userId id : String) (u : LocalStore.TaskUpdates) :
    (LocalStore.update st key userId id u).1
      = ((LocalStore.load st key userId).find? (fun t => t.id == id)).map
          (fun t => LocalStore.applyUpdates t u) := by
  have h := replaceFirst_fst (fun t => t.id == id) (fun t => LocalStore.applyUpdates t u)
    (LocalStore.load st key userId)
  simp only [LocalStore.update]
  split
  all_goals rename_i heq
  all_goals rw [← h, heq]

/-- Claim C5 counterexample: updating stored task "a" with a partialFields
object carrying `createdAt` and `id` keys overwrites both fields, in the
returned record and in the store — the shallow merge protects nothing. -/
theorem C5_counterexample_update_overwrites_createdAt :
    ((LocalStore.update (LocalStore.save emptyStorage agendaKey "u1" [c3Task]) agendaKey
        "u1" "a" { createdAt := some 999, id := some "zz" }).1).map Task.createdAt
      = some 999 ∧
    ((LocalStore.update (LocalStore.save emptyStorage agendaKey "u1" [c3Task]) agendaKey
        "u1" "a" { createdAt := some 999, id := some "zz" }).1).map Task.id
      = some "zz" ∧
    (LocalStore.load ((LocalStore.update (LocalStore.save emptyStorage agendaKey "u1"
        [c3Task]) agendaKey "u1" "a" { createdAt := some 999, id := some "zz" }).2)
        agendaKey "u1").map Task.createdAt
      = [999] := by
  decide

/-- Claim C5 amended: provided partialFields carries none of the keys `id`,
`ownerId` and `createdAt`, the local adapter's update leaves those three
fields unchanged on every stored record and returns a record with the same
three fields as the stored original it merged onto; under a guest session
the service's update leaves the stored id/ownerId/createdAt columns
unchanged as well.  (When partialFields does carry one of those keys, the
shallow merge overwrites it, as the counterexample shows.) -/
theorem C5_update_preserves_identity_fields (st : Storage) (key userId id : String)
    (u : LocalStore.TaskUpdates) (hid : u.id = none) (how : u.ownerId = none)
    (hcr : u.createdAt = none) (sess : Session) (s : ServiceState) (u0 : String)
    (hsu : sess.userId = some u0) (hsm : sess.mode = some Mode.guest) :
    (LocalStore.load (LocalStore.update st key userId id u).2 key userId).map
          (fun t => (t.id, t.ownerId, t.createdAt))
        = (LocalStore.load st key userId).map (fun t => (t.id, t.ownerId, t.createdAt)) ∧
    (∀ t2, (LocalStore.update st key userId id u).1 = some t2 →
      ∃ t0, t0 ∈ LocalStore.load st key userId ∧ t2.id = t0.id ∧
        t2.ownerId = t0.ownerId ∧ t2.createdAt = t0.createdAt) ∧
    (LocalStore.load (updateTask sess s id u).2.store agendaKey u0).map
          (fun t => (t.id, t.ownerId, t.createdAt))
        = (LocalStore.load s.store agendaKey u0).map
          (fun t => (t.id, t.ownerId, t.createdAt)) := by
  have hpres : ∀ t : Task,
      ((LocalStore.applyUpdates t u).id, (LocalStore.applyUpdates t u).ownerId,
        (LocalStore.applyUpdates t u).createdAt) = (t.id, t.ownerId, t.createdAt) := by
    intro t
    simp [LocalStore.applyUpdates, hid, how, hcr]
  have main : ∀ (st' : Storage) (key' user' id' : String),
      (LocalStore.load (LocalStore.update st' key' user' id' u).2 key' user').map
            (fun t => (t.id, t.ownerId, t.createdAt))
          = (LocalStore.load st' key' user').map (fun t => (t.id, t.ownerId, t.createdAt)) := by
    intro st' key' user' id'
    simp only [LocalStore.update]
    split
    · rw [load_save]
      exact replaceFirst_map_eq _ _ _ _ hpres
    · rfl
  refine ⟨main st key userId id, ?_, ?_⟩
  · intro t2 h2
    rw [update_fst] at h2
    obtain ⟨t0, hfind, hmap⟩ := Option.map_eq_some'.mp h2
    refine ⟨t0, List.mem_of_find?_eq_some hfind, ?_⟩
    have := hpres t0
    rw [hmap] at this
    exact ⟨congrArg (fun q => q.1) this, congrArg (fun q => q.2.1) this,
      congrArg (fun q => q.2.2) this⟩
  · obtain ⟨uo, mo⟩ := sess
    simp only [Session.userId] at hsu
    simp only [Session.mode] at hsm
    subst hsu
    subst hsm
    simp only [updateTask]
    split
    · exact main s.store agendaKey u0 id
    · rfl

/-- Witness for C5's amended theorem: a title-only update of stored task "a". -/
theorem C5_update_preserves_identity_fields_witness :
    (LocalStore.load
          (LocalStore.update (LocalStore.save emptyStorage agendaKey "u1" [c3Task])
            agendaKey "u1" "a" { title := some "nuevo" }).2 agendaKey "u1").map
        (fun t => (t.id, t.ownerId, t.createdAt))
      = (LocalStore.load (LocalStore.save emptyStorage agendaKey "u1" [c3Task]) agendaKey
          "u1").map (fun t => (t.id, t.ownerId, t.createdAt)) :=
  (C5_update_preserves_identity_fields (LocalStore.save emptyStorage agendaKey "u1"
      [c3Task]) agendaKey "u1" "a" { title := some "nuevo" } rfl rfl rfl
    { userId := some "u1", mode := some Mode.guest } initialState "u1" rfl rfl).1

/-- Witness for C6's amended theorem on the empty session and empty state. -/
theorem C6_unauthenticated_fails_before_adapters_witness :
    addTask { userId := none, mode := none } initialState "t" none "other" "medium"
        "pending" "i" 1
        = (Outcome.thrown TaskError.notAuthenticated, initialState) ∧
    toggleTask { userId := none, mode := none } initialState "x"
        = (Outcome.thrown TaskError.notAuthenticated, initialState) ∧
    updateTask { userId := none, mode := none } initialState "x" {}
        = (Outcome.thrown TaskError.notAuthenticated, initialState) ∧
    removeTask { userId := none, mode := none } initialState "x"
        = (Outcome.thrown TaskError.notAuthenticated, initialState) ∧
    clearAllTasks { userId := none, mode := none } initialState
        = (Outcome.thrown TaskError.notAuthenticated, initialState) ∧
    loadTasks { userId := none, mode := none } initialState
        = (Outcome.ok (), { initialState with cache := [] }) :=
  C6_unauthenticated_fails_before_adapters { userId := none, mode := none } initialState
    (Or.inl rfl) "t" none "other" "medium" "pending" "i" 1 "x" {}

/-- The title validation check of `addTask` is false whenever the trimmed
title is non-empty. -/
theorem valid_title_check (title : String) (h : jsTrim title ≠ "") :
    (title == "" || (jsTrim title).length == 0) = false := by
  have h1 : title ≠ "" := by
    intro he
    subst he
    exact h rfl
  have h2 : (jsTrim title).length ≠ 0 := by
    intro hl
    apply h
    cases hjs : jsTrim title with
    | mk data =>
      rw [hjs] at hl
      simp [String.length] at hl
      simp [hl]
  simp [h1, h2]

/-- Guest-mode `addTask` on a valid title: the record it builds and the
head-insertions it performs on cache and store. -/
theorem addTask_guest_ok (userId : String) (s : ServiceState) (title : String)
    (h : jsTrim title ≠ "") (dueDate : Option Nat) (category priority taskStatus : String)
    (newId : String) (now : Nat) :
    addTask { userId := some userId, mode := some Mode.guest } s title dueDate category
        priority taskStatus newId now
      = (Outcome.ok { id := newId, title := jsTrim title, done := false, createdAt := now },
          { s with
              store := LocalStore.save s.store agendaKey userId
                ({ id := newId, title := jsTrim title, done := false, createdAt := now }
                  :: LocalStore.load s.store agendaKey userId),
              cache := { id := newId, title := jsTrim title, done := false, createdAt := now }
                :: s.cache }) := by
  simp [addTask, valid_title_check title h, LocalStore.add]

/-- Claim C8: starting from a guest state whose cache coincides with the
stored sequence (in particular the empty store with an empty cache), any
number of sequential successful creates returns records that both the cache
and the stored sequence then hold in reverse creation order, newest first:
each create inserted the new record at the head of both. -/
theorem C8_creates_newest_first (userId : String) (inps : List (String × String × Nat))
    (hvalid : ∀ p ∈ inps, jsTrim p.1 ≠ "") (s : ServiceState)
    (hcoh : s.cache = LocalStore.list s.store agendaKey userId) :
    (runCreates { userId := some userId, mode := some Mode.guest } s inps).2.cache
        = (runCreates { userId := some userId, mode := some Mode.guest } s inps).1.reverse
            ++ s.cache ∧
    LocalStore.list
        (runCreates { userId := some userId, mode := some Mode.guest } s inps).2.store
        agendaKey userId
        = (runCreates { userId := some userId, mode := some Mode.guest } s inps).1.reverse
            ++ s.cache ∧
    (runCreates { userId := some userId, mode := some Mode.guest } s inps).1.length
        = inps.length := by
  induction inps generalizing s with
  | nil =>
    refine ⟨by simp [runCreates], ?_, by simp [runCreates]⟩
    simp [runCreates, hcoh.symm]
  | cons p rest ih =>
    obtain ⟨title, newId, now⟩ := p
    have hh : jsTrim title ≠ "" := hvalid (title, newId, now) (by simp)
    have hrest : ∀ q ∈ rest, jsTrim q.1 ≠ "" := fun q hq => hvalid q (by simp [hq])
    simp only [runCreates, addTask_guest_ok userId s title hh none "other" "medium"
      "pending" newId now]
    set item : Task :=
      { id := newId, title := jsTrim title, done := false, createdAt := now } with hitem
    set s2 : ServiceState :=
      { s with
          store := LocalStore.save s.store agendaKey userId
            (item :: LocalStore.load s.store agendaKey userId),
          cache := item :: s.cache } with hs2
    have hcoh2 : s2.cache = LocalStore.list s2.store agendaKey userId := by
      simp only [hs2, LocalStore.list, load_save]
      simp only [LocalStore.list] at hcoh
      rw [← hcoh]
    obtain ⟨ih1, ih2, ih3⟩ := ih hrest s2 hcoh2
    refine ⟨?_, ?_, ?_⟩
    · simp only [ih1, hs2]
      simp
    · simp only [ih2, hs2]
      simp
    · simp [ih3]

/-- Witness for C8 with two creates from the empty guest store. -/
theorem C8_creates_newest_first_witness :
    (runCreates { userId := some "u1", mode := some Mode.guest } initialState
        [("a", "i1", 1), ("b", "i2", 2)]).2.cache
      = (runCreates { userId := some "u1", mode := some Mode.guest } initialState
          [("a", "i1", 1), ("b", "i2", 2)]).1.reverse ++ initialState.cache ∧
    LocalStore.list
        (runCreates { userId := some "u1", mode := some Mode.guest } initialState
          [("a", "i1", 1), ("b", "i2", 2)]).2.store agendaKey "u1"
      = (runCreates { userId := some "u1", mode := some Mode.guest } initialState
          [("a", "i1", 1), ("b", "i2", 2)]).1.reverse ++ initialState.cache ∧
    (runCreates { userId := some "u1", mode := some Mode.guest } initialState
        [("a", "i1", 1), ("b", "i2", 2)]).1.length = 2 :=
  C8_creates_newest_first "u1" [("a", "i1", 1), ("b", "i2", 2)] (by decide)
    initialState rfl

/-- Saving twice under one key keeps only the second write. -/
theorem save_save (st : Storage) (key userId : String) (l1 l2 : List Task) :
    LocalStore.save (LocalStore.save st key userId l1) key userId l2
      = LocalStore.save st key userId l2 := by
  funext k2
  by_cases h : k2 = storeKey key userId <;> simp [LocalStore.save, Storage.set, h]

/-- Claim C9: the local adapter's remove reports success for every id —
matching a stored task or not — and under a guest session deleting the same
id twice in a row reports success both times and ends in exactly the final
cache and stored state of a single delete. -/
theorem C9_remove_idempotent (st : Storage) (key userId2 id2 : String)
    (sess : Session) (s : ServiceState) (userId id : String)
    (hu : sess.userId = some userId) (hm : sess.mode = some Mode.guest) :
    (LocalStore.remove st key userId2 id2).1 = true ∧
    (removeTask sess s id).1 = Outcome.ok true ∧
    (removeTask sess (removeTask sess s id).2 id).1 = Outcome.ok true ∧
    (removeTask sess (removeTask sess s id).2 id).2 = (removeTask sess s id).2 := by
  obtain ⟨uo, mo⟩ := sess
  simp only [Session.userId] at hu
  simp only [Session.mode] at hm
  subst hu
  subst hm
  refine ⟨rfl, rfl, rfl, ?_⟩
  obtain ⟨cache, store, remote⟩ := s
  simp only [removeTask, LocalStore.remove]
  simp [load_save, save_save, List.filter_filter]

/-- Witness for C9: deleting an id that matches nothing, twice, from the
empty guest state. -/
theorem C9_remove_idempotent_witness :
    (LocalStore.remove emptyStorage agendaKey "u1" "x").1 = true ∧
    (removeTask { userId := some "u1", mode := some Mode.guest } initialState "x").1
        = Outcome.ok true ∧
    (removeTask { userId := some "u1", mode := some Mode.guest }
        (removeTask { userId := some "u1", mode := some Mode.guest } initialState
          "x").2 "x").1
        = Outcome.ok true ∧
    (removeTask { userId := some "u1", mode := some Mode.guest }
        (removeTask { userId := some "u1", mode := some Mode.guest } initialState
          "x").2 "x").2
        = (removeTask { userId := some "u1", mode := some Mode.guest } initialState
            "x").2 :=
  C9_remove_idempotent emptyStorage agendaKey "u1" "x"
    { userId := some "u1", mode := some Mode.guest } initialState "u1" "x" rfl rfl

end Agenda
